import Mathlib

/-!
Verification of the process-supervision / load-balancing subsystem of the
CoastalGuard repository (`config/loadBalancer.js`, the production startup
script, `config/environment.js`).

The supervisor state and its operations are shallowly embedded below.  The
worker registry is a JavaScript `Map` keyed by worker id; since `Map`
preserves insertion order and `Array.from(map.values())` enumerates in that
order, the registry is modelled as a `List Worker` in insertion order.
Observable actions of the master (forking, IPC sends, OS signals, scheduling
a delayed replacement fork, exiting the process) are modelled as an `Effect`
list emitted by each operation.
-/

/-- One registry entry: the worker id assigned by the cluster module and the
`worker.process.connected` flag of its IPC channel. -/
structure Worker where
  id : Nat
  connected : Bool
deriving DecidableEq, Repr

/-- Observable actions performed by the master process. -/
inductive Effect where
  /-- `cluster.fork()` created the worker with this id. -/
  | forked (id : Nat)
  /-- `worker.send(msg)` over the IPC channel. -/
  | send (id : Nat) (msg : String)
  /-- `worker.kill(signal)`: an OS-level signal. -/
  | kill (id : Nat) (signal : String)
  /-- `setTimeout(() => this.forkWorker(), 1000)` in the exit handler. -/
  | scheduleReplacement
  /-- `process.exit(code)` of the master process. -/
  | exitProcess (code : Nat)
deriving DecidableEq, Repr

/-- Recognizer for fork effects. -/
def Effect.isForked : Effect → Bool
  | Effect.forked _ => true
  | _ => false

/-- Recognizer for IPC send effects. -/
def Effect.isSend : Effect → Bool
  | Effect.send _ _ => true
  | _ => false

/-- Recognizer for OS-signal effects. -/
def Effect.isKill : Effect → Bool
  | Effect.kill _ _ => true
  | _ => false

/-- The LoadBalancer instance state: `numCPUs` (the target worker count,
set in the constructor), the worker registry `Map`, and `cluster.isMaster`.
`nextId` models the cluster module's monotonically increasing worker-id
counter (ids are never reused). -/
structure LBState where
  numCPUs : Nat
  workers : List Worker
  isMaster : Bool
  nextId : Nat
deriving DecidableEq, Repr

/-- The `LoadBalancer` constructor (loadBalancer.js lines 6-10):
`this.numCPUs = os.cpus().length; this.workers = new Map();
this.isMaster = cluster.isMaster`.  `cpus` models `os.cpus().length`. -/
def mkLoadBalancer (cpus : Nat) (master : Bool) : LBState :=
  { numCPUs := cpus, workers := [], isMaster := master, nextId := 1 }

/-- `validateEnv` resolving `CLUSTER_WORKERS` (environment.js lines 82 and
127-130): an explicit numeric value is kept, the `auto` default becomes
`os.cpus().length`. -/
def resolveClusterWorkers (clusterWorkersEnv : Option Nat) (cpus : Nat) : Nat :=
  match clusterWorkersEnv with
  | some n => n
  | none => cpus

/-- The production startup script in master mode: it calls `validateEnv()`
(which resolves `CLUSTER_WORKERS`, here `clusterWorkersConfig`) and then
constructs `new LoadBalancer()`, passing nothing — the constructor reads
only `os.cpus().length`. -/
def startupState (clusterWorkersConfig : Option Nat) (cpus : Nat) : LBState :=
  mkLoadBalancer cpus true

/-- `forkWorker` (loadBalancer.js lines 72-76): `cluster.fork()` yields a
fresh worker with a new id and a connected channel, and `this.workers.set`
with a fresh key appends it to the registry. -/
def forkWorker (s : LBState) : LBState × Worker :=
  let w : Worker := { id := s.nextId, connected := true }
  ({ s with workers := s.workers ++ [w], nextId := s.nextId + 1 }, w)

/-- A counted fork loop (`for (let i = ...; i < ...; i++) this.forkWorker()`),
returning the new state and one `Effect.forked` per iteration. -/
def forkLoop : Nat → LBState → LBState × List Effect
  | 0, s => (s, [])
  | Nat.succ n, s =>
    let p := forkWorker s
    let q := forkLoop n p.1
    (q.1, Effect.forked p.2.id :: q.2)

/-- `monitorWorkers` (loadBalancer.js lines 79-101): returns early unless
master; captures `activeWorkers = this.workers.size` and
`expectedWorkers = this.numCPUs`; if `activeWorkers < expectedWorkers` runs
`forkWorker()` for `i` from `activeWorkers` to `expectedWorkers - 1`
(the bounds are the captured locals, so exactly the shortfall); then
iterates the (now updated) registry and sends `'health-check'` to every
worker whose `process.connected` holds. -/
def monitorWorkers (s : LBState) : LBState × List Effect :=
  if s.isMaster = false then (s, [])
  else
    let activeWorkers := s.workers.length
    let expectedWorkers := s.numCPUs
    let p :=
      if activeWorkers < expectedWorkers then
        forkLoop (expectedWorkers - activeWorkers) s
      else (s, [])
    let sends := (p.1.workers.filter (fun w => w.connected)).map
      (fun w => Effect.send w.id "health-check")
    (p.1, p.2 ++ sends)

/-- `scaleWorkers` (loadBalancer.js lines 170-194): returns early unless
master; if `count > currentCount` forks `count - currentCount` workers; if
`count < currentCount` takes `Array.from(this.workers.values())` and, for
`i` in `[0, toRemove)`, calls `workersArray[i].kill('SIGTERM')` whenever
that entry exists and its channel is connected.  The registry itself is
not mutated here (removal happens later via exit events). -/
def scaleWorkers (s : LBState) (count : Nat) : LBState × List Effect :=
  if s.isMaster = false then (s, [])
  else
    let currentCount := s.workers.length
    if count > currentCount then
      forkLoop (count - currentCount) s
    else if count < currentCount then
      let toRemove := currentCount - count
      let kills := ((s.workers.take toRemove).filter (fun w => w.connected)).map
        (fun w => Effect.kill w.id "SIGTERM")
      (s, kills)
    else (s, [])

/-- The `cluster.on('exit')` handler (loadBalancer.js lines 43-52): deletes
the worker from the registry and unconditionally schedules a replacement
fork via `setTimeout(() => this.forkWorker(), 1000)` — there is no
shutdown flag and no expected-exit marker consulted. -/
def onWorkerExit (s : LBState) (wid : Nat) : LBState × List Effect :=
  ({ s with workers := s.workers.filter (fun w => w.id ≠ wid) },
   [Effect.scheduleReplacement])

/-- The `cluster.on('disconnect')` handler (loadBalancer.js lines 37-40):
deletes the worker from the registry. -/
def onWorkerDisconnect (s : LBState) (wid : Nat) : LBState :=
  { s with workers := s.workers.filter (fun w => w.id ≠ wid) }

/-- `worker.send('shutdown')`: in Node, sending on a closed IPC channel
fails with `ERR_IPC_CHANNEL_CLOSED`; on a connected channel it succeeds.
`shutdownGracefully` guards each send with `worker.process.connected`. -/
def sendShutdown (w : Worker) : Except String Effect :=
  if w.connected then Except.ok (Effect.send w.id "shutdown")
  else Except.error "ERR_IPC_CHANNEL_CLOSED"

/-- The `this.workers.forEach` loop of `shutdownGracefully` (loadBalancer.js
lines 109-118): for each registry worker with a connected channel, send
`'shutdown'` and register a pending promise resolved by that worker's
`disconnect` event.  Returns the emitted sends and the pending worker ids. -/
def shutdownLoop : List Worker → Except String (List Effect × List Nat)
  | [] => Except.ok ([], [])
  | w :: ws =>
    if w.connected then
      match sendShutdown w with
      | Except.error e => Except.error e
      | Except.ok eff =>
        match shutdownLoop ws with
        | Except.error e => Except.error e
        | Except.ok p => Except.ok (eff :: p.1, w.id :: p.2)
    else shutdownLoop ws

/-- `shutdownGracefully` (loadBalancer.js lines 104-129), message phase:
the sends issued and the pending promise set. -/
def shutdownGracefully (s : LBState) : Except String (List Effect × List Nat) :=
  shutdownLoop s.workers

/-- The whole `shutdownGracefully` sequence against a set `disconnected` of
worker ids whose `disconnect` event has fired: the sends are emitted, and
once `Promise.allSettled` resolves — exactly when every pending worker has
disconnected — the master runs `process.exit(0)`. -/
def shutdownSequence (s : LBState) (disconnected : List Nat) :
    Except String (List Effect) :=
  match shutdownLoop s.workers with
  | Except.error e => Except.error e
  | Except.ok p =>
    if p.2.all (fun i => disconnected.contains i) then
      Except.ok (p.1 ++ [Effect.exitProcess 0])
    else
      Except.ok p.1

/-- `getStats` (loadBalancer.js lines 132-154), restricted to the `workers`
block the claims are about (`master` and `system` blocks are direct reads
of process metrics): `null` from a worker process; from the master,
`total = this.workers.size`, `expected = this.numCPUs`,
`active = Array.from(this.workers.values()).filter(w => w.process.connected).length`. -/
structure WorkerStats where
  total : Nat
  expected : Nat
  active : Nat
deriving DecidableEq, Repr

/-- The `getStats` accessor itself. -/
def getStats (s : LBState) : Option WorkerStats :=
  if s.isMaster = false then none
  else some
    { total := s.workers.length
    , expected := s.numCPUs
    , active := (s.workers.filter (fun w => w.connected)).length }

/-- An action a worker process takes in response to an event (production
startup script, worker branch). -/
inductive WorkerEvent where
  | exitProcess (code : Nat)
  | sendHealth
  | noop
deriving DecidableEq, Repr

/-- The worker-side `process.on('message')` handler (production startup
script): `'shutdown'` runs `process.exit(0)`; `'health-check'` runs
`process.send({type: 'health', ...})`; anything else is ignored. -/
def workerOnMessage (msg : String) : WorkerEvent :=
  if msg = "shutdown" then WorkerEvent.exitProcess 0
  else if msg = "health-check" then WorkerEvent.sendHealth
  else WorkerEvent.noop

/-- The worker-side `process.on('uncaughtException')` handler installed by
`startWorker`: `process.exit(1)`. -/
def workerOnUncaughtException : WorkerEvent := WorkerEvent.exitProcess 1

/-- The worker-side `process.on('unhandledRejection')` handler installed by
`startWorker`: `process.exit(1)`. -/
def workerOnUnhandledRejection : WorkerEvent := WorkerEvent.exitProcess 1

/-- A connected worker record with the given id, for concrete scenarios. -/
def wk (i : Nat) : Worker := { id := i, connected := true }

/-- A master with target 4 and four connected workers (Scenarios A, C, D). -/
def s4 : LBState :=
  { numCPUs := 4, workers := [wk 1, wk 2, wk 3, wk 4], isMaster := true, nextId := 5 }

/-- A master with target 4 and three connected workers (Scenario E). -/
def s3 : LBState :=
  { numCPUs := 4, workers := [wk 1, wk 2, wk 3], isMaster := true, nextId := 4 }

/-- A master with target 4 and two connected workers. -/
def s2 : LBState :=
  { numCPUs := 4, workers := [wk 1, wk 2], isMaster := true, nextId := 3 }

/-- The same binary running in a worker process (`cluster.isMaster` false). -/
def sWorkerSide : LBState :=
  { numCPUs := 4, workers := [], isMaster := false, nextId := 1 }

/-- C1: Scenario C on the code as written: `scaleWorkers(2)` on a pool of 4
connected workers does send exactly 2 terminate signals (to the first two
registry entries), but the `exit` handler then schedules a replacement fork
for each terminated worker — there is no expected-exit marker — so after
the two scheduled `forkWorker` calls run, the registry is back at size 4,
not the claimed stable 2. -/
theorem scaleDown_replacement_forked_bug :
    (scaleWorkers s4 2).1 = s4 ∧
    (scaleWorkers s4 2).2 = [Effect.kill 1 "SIGTERM", Effect.kill 2 "SIGTERM"] ∧
    (onWorkerExit s4 1).2 = [Effect.scheduleReplacement] ∧
    (onWorkerExit (onWorkerExit s4 1).1 2).2 = [Effect.scheduleReplacement] ∧
    (forkWorker (forkWorker (onWorkerExit (onWorkerExit s4 1).1 2).1).1).1.workers.length = 4 :=
  ⟨rfl, rfl, rfl, rfl, rfl⟩

/-- C2: the code has no shutdown-mode flag: mid-shutdown (here: `s3` has
been sent the three shutdown messages, only worker 1 has disconnected, so
the `Promise.allSettled` wait is not yet resolved) the `exit` handler for
worker 1 still schedules a replacement fork. -/
theorem exit_replacement_during_shutdown_bug :
    shutdownGracefully s3 = Except.ok
      ([Effect.send 1 "shutdown", Effect.send 2 "shutdown", Effect.send 3 "shutdown"],
       [1, 2, 3]) ∧
    ([1, 2, 3].all (fun i => List.contains [1] i)) = false ∧
    (onWorkerExit (onWorkerDisconnect s3 1) 1).2 = [Effect.scheduleReplacement] :=
  ⟨rfl, rfl, rfl⟩

/-- C3 counterexample: with `CLUSTER_WORKERS = 2` configured on a 4-core
host, `validateEnv` resolves the override to 2, but the supervisor's target
worker count is 4: the `LoadBalancer` constructor ignores the configured
override entirely. -/
theorem cluster_workers_override_ignored_cex :
    resolveClusterWorkers (some 2) 4 = 2 ∧
    (startupState (some 2) 4).numCPUs = 4 ∧
    (startupState (some 2) 4).numCPUs ≠ resolveClusterWorkers (some 2) 4 := by
  refine ⟨rfl, rfl, ?_⟩
  decide

/-- C3 amended: at supervisor startup the target worker count always equals
the detected CPU core count, whatever `CLUSTER_WORKERS` resolves to; the
resolved override only agrees with the target in the `auto` (absent) case. -/
theorem startup_target_always_cpu_count (cfg : Option Nat) (cpus : Nat) :
    (startupState cfg cpus).numCPUs = cpus ∧
    (cfg = none → resolveClusterWorkers cfg cpus = (startupState cfg cpus).numCPUs) := by
  refine ⟨rfl, ?_⟩
  intro h
  subst h
  rfl

/-- C3 amended, instantiated: with no override on an 8-core host the target
is 8 and agrees with the resolved configuration value. -/
theorem startup_target_always_cpu_count_witness :
    (startupState none 8).numCPUs = 8 ∧
    resolveClusterWorkers none 8 = (startupState none 8).numCPUs :=
  ⟨(startup_target_always_cpu_count none 8).1,
   (startup_target_always_cpu_count none 8).2 rfl⟩

/-- C8: a worker that receives the in-band `'shutdown'` message exits with
code 0; an uncaught exception or unhandled rejection exits with code 1; the
`'health-check'` message results in a health report send, not an exit. -/
theorem worker_handlers_spec :
    workerOnMessage "shutdown" = WorkerEvent.exitProcess 0 ∧
    workerOnUncaughtException = WorkerEvent.exitProcess 1 ∧
    workerOnUnhandledRejection = WorkerEvent.exitProcess 1 ∧
    workerOnMessage "health-check" = WorkerEvent.sendHealth :=
  ⟨rfl, rfl, rfl, rfl⟩

/-- The workers a run of `forkLoop` appends: `n` fresh connected workers
with consecutive ids starting at `i`. -/
def newWorkers : Nat → Nat → List Worker
  | 0, _ => []
  | Nat.succ n, i => { id := i, connected := true } :: newWorkers n (i + 1)

/-- The effects a run of `forkLoop` emits: `n` fork effects with
consecutive ids starting at `i`. -/
def forkEffects : Nat → Nat → List Effect
  | 0, _ => []
  | Nat.succ n, i => Effect.forked i :: forkEffects n (i + 1)

theorem newWorkers_length (n i : Nat) : (newWorkers n i).length = n := by
  induction n generalizing i with
  | zero => rfl
  | succ n ih => simp [newWorkers, ih]

theorem newWorkers_connected (n i : Nat) :
    ∀ w ∈ newWorkers n i, w.connected = true := by
  induction n generalizing i with
  | zero => intro w h; cases h
  | succ n ih =>
    intro w h
    rcases List.mem_cons.mp h with rfl | h
    · rfl
    · exact ih (i + 1) w h

theorem forkEffects_length (n i : Nat) : (forkEffects n i).length = n := by
  induction n generalizing i with
  | zero => rfl
  | succ n ih => simp [forkEffects, ih]

theorem forkEffects_isForked (n i : Nat) :
    ∀ e ∈ forkEffects n i, Effect.isForked e = true := by
  induction n generalizing i with
  | zero => intro e h; cases h
  | succ n ih =>
    intro e h
    rcases List.mem_cons.mp h with rfl | h
    · rfl
    · exact ih (i + 1) e h

theorem forkLoop_workers (n : Nat) (s : LBState) :
    (forkLoop n s).1.workers = s.workers ++ newWorkers n s.nextId := by
  induction n generalizing s with
  | zero => simp [forkLoop, newWorkers]
  | succ n ih =>
    simp only [forkLoop, forkWorker, newWorkers]
    rw [ih]
    simp

theorem forkLoop_effects (n : Nat) (s : LBState) :
    (forkLoop n s).2 = forkEffects n s.nextId := by
  induction n generalizing s with
  | zero => rfl
  | succ n ih =>
    simp only [forkLoop, forkWorker, forkEffects]
    rw [ih]

/-- Unfolding of `monitorWorkers` in a worker process. -/
theorem monitorWorkers_worker_side (s : LBState) (h : s.isMaster = false) :
    monitorWorkers s = (s, []) := by
  unfold monitorWorkers
  rw [if_pos h]

/-- Unfolding of `monitorWorkers` on a master tick with a shortfall. -/
theorem monitorWorkers_master_short (s : LBState) (h : s.isMaster = true)
    (h2 : s.workers.length < s.numCPUs) :
    monitorWorkers s =
      ((forkLoop (s.numCPUs - s.workers.length) s).1,
       (forkLoop (s.numCPUs - s.workers.length) s).2 ++
         ((forkLoop (s.numCPUs - s.workers.length) s).1.workers.filter
             (fun w => w.connected)).map
           (fun w => Effect.send w.id "health-check")) := by
  unfold monitorWorkers
  rw [if_neg (by simp [h])]
  simp only []
  rw [if_pos h2]

/-- Unfolding of `monitorWorkers` on a master tick at or above target. -/
theorem monitorWorkers_master_full (s : LBState) (h : s.isMaster = true)
    (h2 : ¬ s.workers.length < s.numCPUs) :
    monitorWorkers s =
      (s, (s.workers.filter (fun w => w.connected)).map
        (fun w => Effect.send w.id "health-check")) := by
  unfold monitorWorkers
  rw [if_neg (by simp [h])]
  simp only []
  rw [if_neg h2]
  rfl

/-- Unfolding of `scaleWorkers` above the current pool size. -/
theorem scaleWorkers_up_eq (s : LBState) (count : Nat) (h : s.isMaster = true)
    (h2 : s.workers.length < count) :
    scaleWorkers s count = forkLoop (count - s.workers.length) s := by
  unfold scaleWorkers
  rw [if_neg (by simp [h])]
  simp only []
  rw [if_pos h2]

/-- C6: on a master tick with a shortfall, `monitorWorkers` forks exactly
`target − registry size at tick time` workers (appending them to the
registry), and its send effects are exactly one `'health-check'` to each
worker of the resulting registry whose channel is connected. -/
theorem monitorWorkers_tick_spec (s : LBState)
    (h1 : s.isMaster = true) (h2 : s.workers.length < s.numCPUs) :
    ((monitorWorkers s).2.filter Effect.isForked).length =
      s.numCPUs - s.workers.length ∧
    (monitorWorkers s).2.filter Effect.isSend =
      ((monitorWorkers s).1.workers.filter (fun w => w.connected)).map
        (fun w => Effect.send w.id "health-check") ∧
    (monitorWorkers s).1.workers =
      s.workers ++ newWorkers (s.numCPUs - s.workers.length) s.nextId := by
  rw [monitorWorkers_master_short s h1 h2]
  set fl := forkLoop (s.numCPUs - s.workers.length) s with hfl
  set sends := (fl.1.workers.filter (fun w => w.connected)).map
    (fun w => Effect.send w.id "health-check") with hsends
  have hA : ∀ e ∈ fl.2, Effect.isForked e = true := by
    intro e he
    rw [hfl, forkLoop_effects] at he
    exact forkEffects_isForked _ _ e he
  have hB : ∀ e ∈ sends, Effect.isSend e = true := by
    intro e he
    rcases List.mem_map.mp he with ⟨w, _, rfl⟩
    rfl
  have hC : ∀ e ∈ sends, ¬ Effect.isForked e = true := by
    intro e he
    rcases List.mem_map.mp he with ⟨w, _, rfl⟩
    simp [Effect.isForked]
  have hD : ∀ e ∈ fl.2, ¬ Effect.isSend e = true := by
    intro e he
    have h := hA e he
    cases e <;> simp_all [Effect.isForked, Effect.isSend]
  refine ⟨?_, ?_, ?_⟩
  · rw [List.filter_append, List.filter_eq_self.mpr hA,
      List.filter_eq_nil_iff.mpr hC, List.append_nil, hfl, forkLoop_effects,
      forkEffects_length]
  · rw [List.filter_append, List.filter_eq_nil_iff.mpr hD,
      List.filter_eq_self.mpr hB, List.nil_append]
  · rw [hfl, forkLoop_workers]

/-- C6 instantiated: a master with target 4 and two registered connected
workers forks exactly 2 workers on the tick and health-checks the
connected workers of the resulting registry. -/
theorem monitorWorkers_tick_spec_witness :
    ((monitorWorkers s2).2.filter Effect.isForked).length = 2 ∧
    (monitorWorkers s2).2.filter Effect.isSend =
      ((monitorWorkers s2).1.workers.filter (fun w => w.connected)).map
        (fun w => Effect.send w.id "health-check") ∧
    (monitorWorkers s2).1.workers = s2.workers ++ newWorkers 2 s2.nextId :=
  monitorWorkers_tick_spec s2 rfl (by decide)

/-- C7: for a target above the current registry size, `scaleWorkers` forks
exactly the difference, appends the new workers after the untouched
pre-existing records, and emits only fork effects — no signal, no message,
no removal touches an existing worker. -/
theorem scaleUp_frame_spec (s : LBState) (count : Nat)
    (h1 : s.isMaster = true) (h2 : s.workers.length < count) :
    (scaleWorkers s count).1.workers =
      s.workers ++ newWorkers (count - s.workers.length) s.nextId ∧
    ((scaleWorkers s count).2.filter Effect.isForked).length =
      count - s.workers.length ∧
    (∀ e ∈ (scaleWorkers s count).2, Effect.isForked e = true) := by
  rw [scaleWorkers_up_eq s count h1 h2]
  have hA : ∀ e ∈ (forkLoop (count - s.workers.length) s).2,
      Effect.isForked e = true := by
    intro e he
    rw [forkLoop_effects] at he
    exact forkEffects_isForked _ _ e he
  refine ⟨forkLoop_workers _ s, ?_, hA⟩
  rw [List.filter_eq_self.mpr hA, forkLoop_effects, forkEffects_length]

/-- C7 instantiated (Scenario D): `scaleWorkers(6)` on a pool of 4 forks
exactly 2 new workers and leaves the 4 pre-existing records in place. -/
theorem scaleUp_frame_spec_witness :
    (scaleWorkers s4 6).1.workers = s4.workers ++ newWorkers 2 s4.nextId ∧
    ((scaleWorkers s4 6).2.filter Effect.isForked).length = 2 ∧
    (∀ e ∈ (scaleWorkers s4 6).2, Effect.isForked e = true) :=
  scaleUp_frame_spec s4 6 rfl (by decide)

/-- C10: when the registry is at or above target, `monitorWorkers` leaves
the state unchanged and every effect it emits is a `'health-check'` send to
a connected registered worker — it never forks, signals, or removes. -/
theorem monitor_no_shrink_spec (s : LBState) (h : s.numCPUs ≤ s.workers.length) :
    (monitorWorkers s).1 = s ∧
    ∀ e ∈ (monitorWorkers s).2,
      ∃ w, w ∈ s.workers ∧ w.connected = true ∧ e = Effect.send w.id "health-check" := by
  by_cases hm : s.isMaster = true
  · rw [monitorWorkers_master_full s hm (Nat.not_lt.mpr h)]
    refine ⟨rfl, ?_⟩
    intro e he
    rcases List.mem_map.mp he with ⟨w, hw, rfl⟩
    rcases List.mem_filter.mp hw with ⟨hmem, hconn⟩
    exact ⟨w, hmem, hconn, rfl⟩
  · have hm' : s.isMaster = false := by
      revert hm
      cases s.isMaster <;> simp
    rw [monitorWorkers_worker_side s hm']
    exact ⟨rfl, fun e he => absurd he (List.not_mem_nil e)⟩

/-- C10 instantiated: a master at target (4 of 4) changes nothing on a tick
and only health-checks connected registered workers. -/
theorem monitor_no_shrink_spec_witness :
    (monitorWorkers s4).1 = s4 ∧
    ∀ e ∈ (monitorWorkers s4).2,
      ∃ w, w ∈ s4.workers ∧ w.connected = true ∧ e = Effect.send w.id "health-check" :=
  monitor_no_shrink_spec s4 (by decide)

theorem contains_nat_iff (d : List Nat) (i : Nat) : d.contains i = true ↔ i ∈ d := by
  simp

theorem shutdownLoop_ok (ws : List Worker) :
    shutdownLoop ws = Except.ok
      ((ws.filter (fun w => w.connected)).map (fun w => Effect.send w.id "shutdown"),
       (ws.filter (fun w => w.connected)).map (fun w => w.id)) := by
  induction ws with
  | nil => rfl
  | cons w ws ih =>
    unfold shutdownLoop
    by_cases hc : w.connected = true
    · rw [if_pos hc]
      unfold sendShutdown
      rw [if_pos hc, ih]
      simp [List.filter_cons, hc]
    · rw [if_neg hc, ih]
      have hc' : w.connected = false := by
        revert hc
        cases w.connected <;> simp
      simp [List.filter_cons, hc']

/-- C4: the graceful-shutdown sequence never fails, sends the in-band
`'shutdown'` message to every currently connected worker, and the final
`process.exit(0)` of the master occurs exactly when every pending worker
(those that were sent the message) has fired its `disconnect` event. -/
theorem shutdown_sequence_spec (s : LBState) (d : List Nat) :
    ∃ es, shutdownSequence s d = Except.ok es ∧
      (∀ w ∈ s.workers, w.connected = true → Effect.send w.id "shutdown" ∈ es) ∧
      (Effect.exitProcess 0 ∈ es ↔
        ∀ wid ∈ (s.workers.filter (fun w => w.connected)).map (fun w => w.id),
          wid ∈ d) := by
  unfold shutdownSequence
  rw [shutdownLoop_ok]
  simp only []
  set sends := (s.workers.filter (fun w => w.connected)).map
    (fun w => Effect.send w.id "shutdown") with hsends
  set pending := (s.workers.filter (fun w => w.connected)).map
    (fun w => w.id) with hpending
  have hmemsend : ∀ w ∈ s.workers, w.connected = true →
      Effect.send w.id "shutdown" ∈ sends := by
    intro w hw hc
    exact List.mem_map.mpr ⟨w, List.mem_filter.mpr ⟨hw, hc⟩, rfl⟩
  have hnoexit : Effect.exitProcess 0 ∉ sends := by
    intro hmem
    rcases List.mem_map.mp hmem with ⟨w, _, heq⟩
    cases heq
  by_cases hall : pending.all (fun i => d.contains i) = true
  · rw [if_pos hall]
    refine ⟨sends ++ [Effect.exitProcess 0], rfl, ?_, ?_⟩
    · intro w hw hc
      exact List.mem_append_left _ (hmemsend w hw hc)
    · refine iff_of_true (List.mem_append_right _ (List.mem_singleton.mpr rfl)) ?_
      intro wid hwid
      exact (contains_nat_iff d wid).mp (List.all_eq_true.mp hall wid hwid)
  · rw [if_neg hall]
    refine ⟨sends, rfl, hmemsend, ?_⟩
    refine iff_of_false hnoexit ?_
    intro hforall
    apply hall
    rw [List.all_eq_true]
    intro wid hwid
    exact (contains_nat_iff d wid).mpr (hforall wid hwid)

/-- C4 instantiated (Scenario E): a master with three connected workers
sends all three the shutdown message and exits with code 0 exactly when
all three have disconnected. -/
theorem shutdown_sequence_spec_witness :
    ∃ es, shutdownSequence s3 [1, 2, 3] = Except.ok es ∧
      (∀ w ∈ s3.workers, w.connected = true → Effect.send w.id "shutdown" ∈ es) ∧
      (Effect.exitProcess 0 ∈ es ↔
        ∀ wid ∈ (s3.workers.filter (fun w => w.connected)).map (fun w => w.id),
          wid ∈ [1, 2, 3]) :=
  shutdown_sequence_spec s3 [1, 2, 3]

/-- C5: any call to `shutdownGracefully` — in particular a second call in
succession — succeeds without an IPC error (it never sends on a closed
channel), emits only IPC sends (it forks no workers), and sends nothing to
a worker that is not a currently connected registry member, so an
already-disconnected worker never receives a second shutdown message. -/
theorem shutdown_idempotent_spec (s : LBState) :
    ∃ sends pending, shutdownGracefully s = Except.ok (sends, pending) ∧
      (∀ e ∈ sends, Effect.isSend e = true) ∧
      (∀ wid, wid ∉ (s.workers.filter (fun w => w.connected)).map (fun w => w.id) →
        Effect.send wid "shutdown" ∉ sends) := by
  refine ⟨_, _, shutdownLoop_ok s.workers, ?_, ?_⟩
  · intro e he
    rcases List.mem_map.mp he with ⟨w, _, rfl⟩
    rfl
  · intro wid hwid hmem
    rcases List.mem_map.mp hmem with ⟨w, hw, heq⟩
    injection heq with h1 h2
    exact hwid (h1 ▸ List.mem_map.mpr ⟨w, hw, rfl⟩)

/-- C5 instantiated: on the pool of three connected workers the call
succeeds, emits only sends, and a worker id outside the connected registry
(such as 9) receives nothing. -/
theorem shutdown_idempotent_spec_witness :
    ∃ sends pending, shutdownGracefully s3 = Except.ok (sends, pending) ∧
      (∀ e ∈ sends, Effect.isSend e = true) ∧
      (∀ wid, wid ∉ (s3.workers.filter (fun w => w.connected)).map (fun w => w.id) →
        Effect.send wid "shutdown" ∉ sends) :=
  shutdown_idempotent_spec s3

/-- C9: `getStats` from a worker process returns `none` (and, being a total
function, does not throw); from the master it reports the registry size as
`total`, the target worker count as `expected`, and the number of connected
registered workers as `active`. -/
theorem getStats_spec (s : LBState) :
    (s.isMaster = false → getStats s = none) ∧
    (s.isMaster = true → getStats s = some
      { total := s.workers.length
      , expected := s.numCPUs
      , active := (s.workers.filter (fun w => w.connected)).length }) := by
  constructor
  · intro h
    unfold getStats
    rw [if_pos h]
  · intro h
    unfold getStats
    rw [if_neg (by simp [h])]

/-- C9 instantiated (Scenario A): from a worker process the result is
absent; on a master with target 4 and four cleanly started workers,
`active = 4` and `expected = 4`. -/
theorem getStats_spec_witness :
    getStats sWorkerSide = none ∧
    getStats s4 = some { total := 4, expected := 4, active := 4 } :=
  ⟨(getStats_spec sWorkerSide).1 rfl, (getStats_spec s4).2 rfl⟩
